import Mathlib

/-!
Shallow embedding of the functional-enrichment-analysis pipeline.

The pipeline loads a gene-score table (columns `names`, `scores`,
`pvals_adj`), computes a significance threshold from the score column
(mean + 1.5 * sample standard deviation, pandas semantics: NaN entries
are skipped by `mean`/`std`, and `std` uses ddof = 1), filters the table
by `scores > threshold` and `pvals_adj < 0.05` (comparisons with NaN are
false), and hands the resulting gene-name list to external enrichment
services.  Missing/NaN cells are modelled as `none`; numeric cells are
exact rationals, and the derived standard deviation / threshold live in
`ℝ` because of the square root.
-/

namespace FunctionalEnrichment

/-- One row of the gene-score table: gene name, score, adjusted p-value.
`none` models a missing/NaN cell. -/
structure GeneRecord where
  names : String
  scores : Option ℚ
  pvals_adj : Option ℚ
deriving DecidableEq

/-- The non-NaN entries of the `scores` column, in table order
(pandas `mean`/`std` skip NaN). -/
def scoreVals (t : List GeneRecord) : List ℚ :=
  t.filterMap (fun r => r.scores)

/-- `skeletal_muscle[scores].mean()`: arithmetic mean of the non-NaN
scores; NaN (`none`) when there are no values. -/
def mean_score (t : List GeneRecord) : Option ℚ :=
  if (scoreVals t).length = 0 then none
  else some ((scoreVals t).sum / ((scoreVals t).length : ℚ))

/-- The sample variance (ddof = 1) underlying pandas
`skeletal_muscle[scores].std()`: NaN (`none`) when fewer than two
non-NaN values are present. -/
def var_score (t : List GeneRecord) : Option ℚ :=
  if (scoreVals t).length < 2 then none
  else
    some (((scoreVals t).map
        (fun x => (x - (scoreVals t).sum / ((scoreVals t).length : ℚ)) ^ 2)).sum /
      (((scoreVals t).length : ℚ) - 1))

/-- `skeletal_muscle[scores].std()`: square root of the sample variance. -/
noncomputable def std_score (t : List GeneRecord) : Option ℝ :=
  (var_score t).map (fun v : ℚ => Real.sqrt (v : ℝ))

/-- `threshold = mean_score + 1.5 * std_score`; NaN propagates. -/
noncomputable def threshold (t : List GeneRecord) : Option ℝ :=
  match mean_score t, std_score t with
  | some m, some s => some ((m : ℝ) + 1.5 * s)
  | _, _ => none

/-- The boolean mask
`(skeletal_muscle[scores] > threshold) & (skeletal_muscle[pvals_adj] < 0.05)`
for one row: a comparison involving NaN is false. -/
noncomputable def passes (th : Option ℝ) (r : GeneRecord) : Bool :=
  (match r.scores, th with
   | some s, some T => decide (T < (s : ℝ))
   | _, _ => false)
  && (match r.pvals_adj with
      | some p => decide (p < (0.05 : ℚ))
      | none => false)

/-- `significant_genes`: the rows selected by the boolean mask, in table
order. -/
noncomputable def significant_genes (t : List GeneRecord) : List GeneRecord :=
  t.filter (passes (threshold t))

/-- `gene_list = significant_genes[names].tolist()`. -/
noncomputable def gene_list (t : List GeneRecord) : List String :=
  (significant_genes t).map (fun r => r.names)

/-- Spec-side arithmetic mean of a list of scores (refinement target for
the code embedding `mean_score`). -/
def specArithMean (xs : List ℚ) : ℚ := xs.sum / (xs.length : ℚ)

/-- Spec-side sample standard deviation of a list of scores: square root
of the sum of squared deviations from the mean divided by n - 1
(refinement target for the code embedding `std_score`). -/
noncomputable def specSampleStd (xs : List ℚ) : ℝ :=
  Real.sqrt ((xs.map (fun x : ℚ => ((x : ℝ) - (specArithMean xs : ℝ)) ^ 2)).sum /
    ((xs.length : ℝ) - 1))

/-- Spec-side threshold: mean + 1.5 * sample standard deviation of the
available scores; per the spec, the statistic is NaN (`none`) when the
sample standard deviation has no degrees of freedom (fewer than two
values), covering the empty and all-NaN columns. -/
noncomputable def specThreshold (xs : List ℚ) : Option ℝ :=
  if 2 ≤ xs.length then
    some ((specArithMean xs : ℝ) + 1.5 * specSampleStd xs)
  else none

/-- Spec-side selection condition for one row: the score is present and
strictly above the (defined) threshold, and the adjusted p-value is
present and strictly below 0.05. -/
def SigSpec (th : Option ℝ) (r : GeneRecord) : Prop :=
  (∃ s T, r.scores = some s ∧ th = some T ∧ T < (s : ℝ)) ∧
  (∃ p, r.pvals_adj = some p ∧ p < (0.05 : ℚ))

/-- gsea.py rank file: `pd.DataFrame(Gene := names, Score := scores)`
followed by `set_index(Gene)`, which keeps one row per source record
(duplicate gene names are not merged or dropped). -/
def rank_df (t : List GeneRecord) : List (String × Option ℚ) :=
  t.map (fun r => (r.names, r.scores))

/-- A source table in which the same gene name carries two scores. -/
def dupTable : List GeneRecord :=
  [⟨"geneA", some 1, some (0.01 : ℚ)⟩, ⟨"geneA", some 2, some (0.01 : ℚ)⟩]

/-- One query to the external gprofiler service: organism, gene list,
and source-database restriction. -/
structure ProfilerCall where
  organism : String
  query : List String
  sources : List String
deriving DecidableEq

/-- go_analysis.py issues `gp.profile(organism = hsapiens, query =
gene_list)` unconditionally: the queries sent for a given gene list. -/
def go_profiler_calls (gl : List String) : List ProfilerCall :=
  [{ organism := "hsapiens", query := gl, sources := [] }]

/-- pathway_analysis.py issues `gp.profile(organism = hsapiens, query =
gene_list, sources = [KEGG, REAC])` unconditionally. -/
def pathway_profiler_calls (gl : List String) : List ProfilerCall :=
  [{ organism := "hsapiens", query := gl, sources := ["KEGG", "REAC"] }]

/-- One row of an enrichment result table, as far as the display code
reads it: term name and intersection size. -/
structure EnrichmentRow where
  name : String
  intersection_size : ℤ
deriving DecidableEq

/-- The rows handed to `sns.barplot`: `results.head(10)`, the first ten
rows of the result table. -/
def plotted_rows (res : List EnrichmentRow) : List EnrichmentRow :=
  res.take 10

/-- The bar chart as data: x values and y values, row by row. -/
structure BarPlot where
  xvals : List ℤ
  yvals : List String
deriving DecidableEq

/-- The chart drawn by go_analysis.py / pathway_analysis.py:
`x = intersection_size`, `y = name`, `data = results.head(10)`. -/
def enrichment_barplot (res : List EnrichmentRow) : BarPlot :=
  { xvals := (plotted_rows res).map (fun r => r.intersection_size),
    yvals := (plotted_rows res).map (fun r => r.name) }

/-- A result table of eleven rows whose largest intersection size sits
in the last row. -/
def cexResults : List EnrichmentRow :=
  [⟨"t1", 1⟩, ⟨"t2", 2⟩, ⟨"t3", 3⟩, ⟨"t4", 4⟩, ⟨"t5", 5⟩, ⟨"t6", 6⟩,
   ⟨"t7", 7⟩, ⟨"t8", 8⟩, ⟨"t9", 9⟩, ⟨"t10", 10⟩, ⟨"t11", 11⟩]

/-- A result table of eleven rows sorted by descending intersection
size. -/
def sortedResults : List EnrichmentRow :=
  [⟨"s1", 11⟩, ⟨"s2", 10⟩, ⟨"s3", 9⟩, ⟨"s4", 8⟩, ⟨"s5", 7⟩, ⟨"s6", 6⟩,
   ⟨"s7", 5⟩, ⟨"s8", 4⟩, ⟨"s9", 3⟩, ⟨"s10", 2⟩, ⟨"s11", 1⟩]

/-- The testable-property table of the spec: scores 1, 2, 3, 4, 100
with every adjusted p-value 0.01. -/
def ex8 : List GeneRecord :=
  [⟨"g1", some 1, some (0.01 : ℚ)⟩, ⟨"g2", some 2, some (0.01 : ℚ)⟩,
   ⟨"g3", some 3, some (0.01 : ℚ)⟩, ⟨"g4", some 4, some (0.01 : ℚ)⟩,
   ⟨"g5", some 100, some (0.01 : ℚ)⟩]

/-- A table whose score column is entirely NaN. -/
def exAllNaN : List GeneRecord :=
  [⟨"gene1", none, some (0.01 : ℚ)⟩]

/-- A record with a missing score. -/
def exNaNRecord : GeneRecord :=
  ⟨"gene2", none, some (0.01 : ℚ)⟩

lemma rat_cast_list_sum (l : List ℚ) :
    ((l.sum : ℚ) : ℝ) = (l.map (fun q : ℚ => (q : ℝ))).sum := by
  induction l with
  | nil => simp
  | cons a l ih => simp [ih]

lemma std_score_eq_none (t : List GeneRecord) (h : (scoreVals t).length < 2) :
    std_score t = none := by
  rw [std_score, var_score, if_pos h]
  rfl

lemma threshold_eq_none_of_std (t : List GeneRecord) (h : std_score t = none) :
    threshold t = none := by
  rw [threshold, h]
  rcases mean_score t with _ | m <;> rfl

/-- Claim C1: for every gene-score table, the significance threshold
computed by the extractor equals the arithmetic mean of the (available)
scores plus 1.5 times their sample standard deviation; on columns where
these statistics have no degrees of freedom both sides are NaN. -/
theorem threshold_matches_spec (t : List GeneRecord) :
    threshold t = specThreshold (scoreVals t) := by
  by_cases h : 2 ≤ (scoreVals t).length
  · have hm : mean_score t = some (specArithMean (scoreVals t)) := by
      rw [mean_score, specArithMean, if_neg (by omega)]
    have hv : var_score t = some (((scoreVals t).map
        (fun x => (x - (scoreVals t).sum / ((scoreVals t).length : ℚ)) ^ 2)).sum /
        (((scoreVals t).length : ℚ) - 1)) := by
      rw [var_score, if_neg (by omega)]
    have hs : std_score t = some (specSampleStd (scoreVals t)) := by
      rw [std_score, hv, Option.map_some']
      have hinner : ((((scoreVals t).map
          (fun x => (x - (scoreVals t).sum / ((scoreVals t).length : ℚ)) ^ 2)).sum /
          (((scoreVals t).length : ℚ) - 1) : ℚ) : ℝ) =
          ((scoreVals t).map
            (fun x : ℚ => ((x : ℝ) - (specArithMean (scoreVals t) : ℝ)) ^ 2)).sum /
          (((scoreVals t).length : ℝ) - 1) := by
        rw [Rat.cast_div, rat_cast_list_sum, List.map_map]
        congr 1
        · refine congrArg List.sum (List.map_congr_left fun x hx => ?_)
          simp only [Function.comp_apply]
          push_cast [specArithMean]
          ring
        · push_cast
          ring
      rw [specSampleStd, hinner]
    rw [threshold, hm, hs, specThreshold, if_pos h]
  · have hs : std_score t = none := std_score_eq_none t (by omega)
    rw [threshold_eq_none_of_std t hs, specThreshold, if_neg h]

lemma passes_iff (th : Option ℝ) (r : GeneRecord) :
    passes th r = true ↔ SigSpec th r := by
  obtain ⟨nm, sc, pv⟩ := r
  rcases sc with _ | s <;> rcases th with _ | T <;> rcases pv with _ | p <;>
    simp [passes, SigSpec]

lemma passes_none (r : GeneRecord) : passes none r = false := by
  obtain ⟨nm, sc, pv⟩ := r
  rcases sc with _ | s <;> rfl

section ClassicalSelection

open Classical

/-- Claim C2: the significant-gene list is exactly the names column of
the records whose score is strictly above the threshold and whose
adjusted p-value is strictly below 0.05, in original table order with
duplicates preserved (the selection is a sublist of the table). -/
theorem gene_list_matches_spec (t : List GeneRecord) :
    gene_list t = ((t.filter fun r => decide (SigSpec (threshold t) r)).map
      (fun r => r.names)) ∧ (significant_genes t).Sublist t := by
  constructor
  · rw [gene_list, significant_genes]
    congr 1
    refine List.filter_congr fun r hr => ?_
    rw [Bool.eq_iff_iff, passes_iff, decide_eq_true_eq]
  · exact List.filter_sublist t

end ClassicalSelection

/-- Counterexample to claim C3 as stated: in a source table where the
name geneA appears twice, the rank table holds two entries for geneA,
not one. -/
theorem rank_df_dup_counterexample :
    ¬ (∀ nm ∈ dupTable.map GeneRecord.names,
        ((rank_df dupTable).filter (fun e => e.1 == nm)).length = 1) := by
  decide

/-- Claim C3 amended: the rank table holds exactly one entry per source
record (no merging and no dropping), pairing each record name with that
record's score in table order; a name therefore has as many rank
entries, with the same scores, as it has source records. -/
theorem rank_df_entries (t : List GeneRecord) :
    (rank_df t).length = t.length ∧
    ∀ nm, ((rank_df t).filter (fun e => e.1 == nm)).map Prod.snd =
      (t.filter (fun r => r.names == nm)).map GeneRecord.scores := by
  constructor
  · rw [rank_df, List.length_map]
  · intro nm
    rw [rank_df, List.filter_map, List.map_map]
    rfl

/-- Claim C4 (code bug): both enrichment reporters issue their profiler
query unconditionally, so the empty gene list is still sent to the
external service instead of short-circuiting with a message. -/
theorem empty_gene_list_still_queries :
    go_profiler_calls [] =
      [{ organism := "hsapiens", query := [], sources := [] }] ∧
    pathway_profiler_calls [] =
      [{ organism := "hsapiens", query := [], sources := ["KEGG", "REAC"] }] :=
  ⟨rfl, rfl⟩

/-- Counterexample to claim C5 as stated: on a result table whose
largest intersection size sits in row eleven, the plotted rows
(`head(10)`) exclude that row even though its intersection size exceeds
every plotted one, so the plotted rows are not the ten rows of largest
intersection size. -/
theorem head_ten_not_top_ten :
    ¬ (∀ r ∈ cexResults, r ∉ plotted_rows cexResults →
        ∀ q ∈ plotted_rows cexResults,
          r.intersection_size ≤ q.intersection_size) := by
  decide

/-- Claim C5 amended: the reporters plot the first ten rows of the
result table, with intersection size on the x axis and term name on the
y axis; only when the result table is sorted by descending intersection
size are those rows of maximal intersection size. -/
theorem barplot_first_ten (res : List EnrichmentRow) :
    enrichment_barplot res =
      { xvals := (res.take 10).map (fun r => r.intersection_size),
        yvals := (res.take 10).map (fun r => r.name) } ∧
    (List.Sorted (fun a b => b.intersection_size ≤ a.intersection_size) res →
      ∀ r ∈ res, r ∉ plotted_rows res →
        ∀ q ∈ plotted_rows res,
          r.intersection_size ≤ q.intersection_size) := by
  refine ⟨rfl, ?_⟩
  intro hsort r hr hnot q hq
  have hp : List.Pairwise
      (fun a b => b.intersection_size ≤ a.intersection_size) res := hsort
  have hsplit := List.take_append_drop 10 res
  rw [← hsplit, List.pairwise_append] at hp
  have hrdrop : r ∈ res.drop 10 := by
    rw [← hsplit] at hr
    rcases List.mem_append.mp hr with h | h
    · exact absurd h hnot
    · exact h
  exact hp.2.2 q hq r hrdrop

/-- Witness for the amended claim C5 at a concrete sorted result
table. -/
theorem barplot_first_ten_witness :
    enrichment_barplot sortedResults =
      { xvals := (sortedResults.take 10).map (fun r => r.intersection_size),
        yvals := (sortedResults.take 10).map (fun r => r.name) } ∧
    ∀ r ∈ sortedResults, r ∉ plotted_rows sortedResults →
      ∀ q ∈ plotted_rows sortedResults,
        r.intersection_size ≤ q.intersection_size :=
  ⟨(barplot_first_ten sortedResults).1,
   (barplot_first_ten sortedResults).2 (by decide)⟩

/-- Claim C6: on a table whose score column is empty or entirely NaN,
the threshold is NaN and the significant-gene list is empty. -/
theorem all_nan_scores_empty_result (t : List GeneRecord)
    (h : ∀ r ∈ t, r.scores = none) :
    threshold t = none ∧ gene_list t = [] := by
  have hsv : scoreVals t = [] := List.filterMap_eq_nil_iff.mpr h
  have hth : threshold t = none :=
    threshold_eq_none_of_std t (std_score_eq_none t (by rw [hsv]; simp))
  refine ⟨hth, ?_⟩
  rw [gene_list, significant_genes, hth]
  have hf : List.filter (passes none) t = [] :=
    List.filter_eq_nil_iff.mpr fun r hr => by
      rw [passes_none]
      exact Bool.false_ne_true
  rw [hf]
  rfl

/-- Witness for claim C6 at a concrete table whose only score is NaN. -/
theorem all_nan_scores_empty_result_witness :
    threshold exAllNaN = none ∧ gene_list exAllNaN = [] :=
  all_nan_scores_empty_result exAllNaN (by decide)

/-- Claim C7: a record with a missing/NaN score or adjusted p-value
fails the filter and is never selected into the significant set. -/
theorem nan_record_excluded (t : List GeneRecord) (r : GeneRecord)
    (h : r.scores = none ∨ r.pvals_adj = none) :
    r ∉ significant_genes t := by
  intro hmem
  rw [significant_genes, List.mem_filter] at hmem
  have hpass := hmem.2
  obtain ⟨nm, sc, pv⟩ := r
  rcases hth : threshold t with _ | T <;> rw [hth] at hpass <;>
    rcases sc with _ | s <;> rcases pv with _ | p <;>
      simp_all [passes]

/-- Witness for claim C7 at a concrete record with a NaN score. -/
theorem nan_record_excluded_witness :
    exNaNRecord ∉ significant_genes [exNaNRecord] :=
  nan_record_excluded [exNaNRecord] exNaNRecord (Or.inl rfl)

/-- Claim C9: the threshold is invariant under permuting the rows of
the table. -/
theorem threshold_perm_invariant (t1 t2 : List GeneRecord)
    (h : t1.Perm t2) : threshold t1 = threshold t2 := by
  have hp : (scoreVals t1).Perm (scoreVals t2) := by
    unfold scoreVals
    exact h.filterMap _
  have hlen := hp.length_eq
  have hsum := hp.sum_eq
  have hvar : var_score t1 = var_score t2 := by
    rw [var_score, var_score, hlen, hsum]
    by_cases hc : (scoreVals t2).length < 2
    · rw [if_pos hc, if_pos hc]
    · rw [if_neg hc, if_neg hc]
      congr 2
      exact (hp.map _).sum_eq
  have hmean : mean_score t1 = mean_score t2 := by
    rw [mean_score, mean_score, hlen, hsum]
  have hstd : std_score t1 = std_score t2 := by
    rw [std_score, std_score, hvar]
  rw [threshold, threshold, hmean, hstd]

/-- Witness for claim C9 at a concrete two-row table and its swap. -/
theorem threshold_perm_invariant_witness :
    threshold [⟨"a", some 1, some (0.01 : ℚ)⟩, ⟨"b", some 2, some (0.02 : ℚ)⟩] =
    threshold [⟨"b", some 2, some (0.02 : ℚ)⟩, ⟨"a", some 1, some (0.01 : ℚ)⟩] :=
  threshold_perm_invariant _ _ (List.Perm.swap _ _ _)

/-- Claim C10: a one-record table always yields an empty
significant-gene list, because the sample standard deviation of one
value is NaN, hence so is the threshold and no comparison with it
holds. -/
theorem singleton_gene_list_empty (r : GeneRecord) :
    gene_list [r] = [] := by
  have hlen : (scoreVals [r]).length < 2 := by
    cases h : r.scores <;> simp [scoreVals, h]
  have hth : threshold [r] = none :=
    threshold_eq_none_of_std _ (std_score_eq_none _ hlen)
  rw [gene_list, significant_genes, hth]
  have hf : List.filter (passes none) [r] = [] :=
    List.filter_eq_nil_iff.mpr fun a _ => by
      rw [passes_none]
      exact Bool.false_ne_true
  rw [hf]
  rfl

lemma ex8_scoreVals : scoreVals ex8 = [1, 2, 3, 4, 100] := rfl

lemma ex8_mean : mean_score ex8 = some 22 := by
  norm_num [mean_score, ex8_scoreVals]

lemma ex8_var : var_score ex8 = some (3805 / 2) := by
  norm_num [var_score, ex8_scoreVals]

lemma ex8_std :
    std_score ex8 = some (Real.sqrt (((3805 : ℚ) / 2 : ℚ) : ℝ)) := by
  rw [std_score, ex8_var, Option.map_some']

lemma ex8_sqrt_lt : Real.sqrt (((3805 : ℚ) / 2 : ℚ) : ℝ) < 43.62 := by
  rw [show ((((3805 : ℚ) / 2 : ℚ)) : ℝ) = 3805 / 2 by norm_num,
    Real.sqrt_lt' (show (0 : ℝ) < 43.62 by norm_num)]
  norm_num

lemma ex8_sqrt_gt : 43.61 < Real.sqrt (((3805 : ℚ) / 2 : ℚ) : ℝ) := by
  rw [show ((((3805 : ℚ) / 2 : ℚ)) : ℝ) = 3805 / 2 by norm_num,
    Real.lt_sqrt (show (0 : ℝ) ≤ 43.61 by norm_num)]
  norm_num

lemma ex8_threshold :
    threshold ex8 =
      some (22 + 1.5 * Real.sqrt (((3805 : ℚ) / 2 : ℚ) : ℝ)) := by
  rw [threshold, ex8_mean, ex8_std]
  norm_num

lemma passes_some (T : ℝ) (nm : String) (s p : ℚ) :
    passes (some T) ⟨nm, some s, some p⟩ =
      (decide (T < (s : ℝ)) && decide (p < (0.05 : ℚ))) := rfl

lemma ex8_gene_list : gene_list ex8 = ["g5"] := by
  have h1 := ex8_sqrt_lt
  have h2 := ex8_sqrt_gt
  rw [gene_list, significant_genes, ex8_threshold]
  have hg : ∀ nm : String, ∀ s : ℚ, s ≤ 4 →
      passes (some (22 + 1.5 * Real.sqrt (((3805 : ℚ) / 2 : ℚ) : ℝ)))
        ⟨nm, some s, some (0.01 : ℚ)⟩ = false := by
    intro nm s hs
    have hns : ¬ (22 + 1.5 * Real.sqrt (((3805 : ℚ) / 2 : ℚ) : ℝ) <
        (s : ℝ)) := by
      have hcast : (s : ℝ) ≤ 4 := by exact_mod_cast hs
      linarith
    rw [passes_some, decide_eq_false hns, Bool.false_and]
  have hg5 :
      passes (some (22 + 1.5 * Real.sqrt (((3805 : ℚ) / 2 : ℚ) : ℝ)))
        ⟨"g5", some 100, some (0.01 : ℚ)⟩ = true := by
    rw [passes_some,
      decide_eq_true (show
        22 + 1.5 * Real.sqrt (((3805 : ℚ) / 2 : ℚ) : ℝ) < ((100 : ℚ) : ℝ) by
        push_cast
        linarith),
      decide_eq_true (show (0.01 : ℚ) < (0.05 : ℚ) by norm_num)]
    rfl
  simp only [ex8]
  rw [List.filter_cons_of_neg (by rw [hg "g1" 1 (by norm_num)]; decide),
    List.filter_cons_of_neg (by rw [hg "g2" 2 (by norm_num)]; decide),
    List.filter_cons_of_neg (by rw [hg "g3" 3 (by norm_num)]; decide),
    List.filter_cons_of_neg (by rw [hg "g4" 4 (by norm_num)]; decide),
    List.filter_cons_of_pos hg5, List.filter_nil]
  rfl

/-- Counterexample to claim C8 as stated: on the table with scores 1,
2, 3, 4, 100 and all adjusted p-values 0.01, the sample standard
deviation is the square root of 1902.5, which is below 43.62, so it is
not within 0.05 of the claimed 43.7 (and the threshold, below 87.43, is
not within 0.05 of the claimed 87.6). -/
theorem ex8_claimed_values_false :
    ¬ (mean_score ex8 = some 22 ∧
       (∃ s : ℝ, std_score ex8 = some s ∧ |s - 43.7| ≤ 0.05) ∧
       (∃ T : ℝ, threshold ex8 = some T ∧ |T - 87.6| ≤ 0.05) ∧
       gene_list ex8 = ["g5"]) := by
  rintro ⟨-, ⟨s, hs, habs⟩, -, -⟩
  have hS : Real.sqrt (((3805 : ℚ) / 2 : ℚ) : ℝ) = s :=
    Option.some.inj (ex8_std.symm.trans hs)
  rw [abs_le, ← hS] at habs
  have h1 := ex8_sqrt_lt
  have := habs.1
  linarith

/-- Claim C8 amended: on the table with scores 1, 2, 3, 4, 100 and all
adjusted p-values 0.01, the mean is 22, the sample standard deviation
is within 0.05 of 43.6, the threshold is within 0.05 of 87.4, and
exactly the gene with score 100 is significant. -/
theorem ex8_values :
    mean_score ex8 = some 22 ∧
    (∃ s : ℝ, std_score ex8 = some s ∧ |s - 43.6| ≤ 0.05) ∧
    (∃ T : ℝ, threshold ex8 = some T ∧ |T - 87.4| ≤ 0.05) ∧
    gene_list ex8 = ["g5"] := by
  refine ⟨ex8_mean, ⟨_, ex8_std, ?_⟩, ⟨_, ex8_threshold, ?_⟩,
    ex8_gene_list⟩
  · rw [abs_le]
    constructor <;> linarith [ex8_sqrt_lt, ex8_sqrt_gt]
  · rw [abs_le]
    constructor <;> linarith [ex8_sqrt_lt, ex8_sqrt_gt]

end FunctionalEnrichment
